import Mathlib

/-!
Verification of the commit-range selection and diff-size-bounded prompt
assembly pipeline of the PatroAutoCommit repository.

The development shallowly embeds the deterministic string-processing core of
two scripts:

* src/patroAutoCommit.py — the auto-commit tool: the staged-diff size
  handling of its main function (lines 205-232) and the prompt assembly of
  generate_commit_message (lines 146-161).
* src/PatroMessages.py — the daily-report tool: per-commit formatting
  (format_message, lines 135-145), report compilation (compile_messages,
  lines 147-157), the date-window computation and the log query handling of
  get_commits_by_date_range (lines 159-208), and the blockers and focus
  rendering of generate_daily_report (lines 236-264).

Calls to the external git binary are modelled by oracle parameters carrying
the value the Python helper would have returned (some output on success,
none when the helper swallowed the failure and returned None) or, for the
broad log query, by an explicit result datatype distinguishing a successful
run, a CalledProcessError (caught by the script) and a FileNotFoundError
(not caught there, hence fatal to the run, modelled as Except.error).

Python string primitives used by the scripts (str.strip, str.lower,
str.split on a single character, str.join) are modelled by structurally
recursive functions over the character list of the string, so that every
definition evaluates inside the kernel.
-/

namespace PatroVerif

/-- Whitespace set of Python str.strip with no argument: space, tab,
newline, carriage return, vertical tab, form feed. -/
def pyIsSpace (c : Char) : Bool :=
  c = ' ' || c = '\t' || c = '\n' || c = '\r' || c = '\x0b' || c = '\x0c'

/-- Python str.strip(): remove leading and trailing whitespace. -/
def pyStrip (s : String) : String :=
  String.mk (((s.data.dropWhile pyIsSpace).reverse.dropWhile pyIsSpace).reverse)

/-- Python str.lower() on the ASCII fragment exercised by the scripts. -/
def pyLower (s : String) : String :=
  String.mk (s.data.map Char.toLower)

/-- Split a character list at every occurrence of the separator; the
resulting list always has one more piece than there are separators, so the
empty input yields one empty piece, as Python str.split(sep) does. -/
def splitCharAux (sep : Char) : List Char → List (List Char)
  | [] => [[]]
  | c :: cs =>
      match splitCharAux sep cs with
      | [] => if c = sep then [[], [c]] else [[c]]
      | piece :: rest =>
          if c = sep then [] :: piece :: rest
          else (c :: piece) :: rest

/-- Python str.split(sep) for a one-character separator. -/
def pySplit (s : String) (sep : Char) : List String :=
  (splitCharAux sep s.data).map String.mk

/-- Python sep.join(pieces). -/
def pyJoin (sep : String) : List String → String
  | [] => ""
  | [x] => x
  | x :: xs => x ++ sep ++ pyJoin sep xs

/-! ## Diff-bounded prompt assembly, src/patroAutoCommit.py -/

/-- Maximum size for the git diff in characters, patroAutoCommit.py line 31. -/
def MAX_DIFF_SIZE : Nat := 80000

/-- Outcome of the staged-diff size handling block of main
(patroAutoCommit.py lines 205-232): either the workflow proceeds with the
final staged_diff and additional_message values, or the process terminates
with an exit code (sys.exit). -/
inductive MainOutcome where
  | proceed (staged_diff : String) (additional_message : String)
  | exitCode (code : Nat)
deriving DecidableEq

/-- Condition of line 217 of patroAutoCommit.py, with Python truthiness:
staged_diff_gml and len(staged_diff_gml) <= MAX_DIFF_SIZE. The Option
models run_git_command returning None on failure. -/
def gmlUsable (gml : Option String) : Bool :=
  match gml with
  | some g => decide (g ≠ "" ∧ g.length ≤ MAX_DIFF_SIZE)
  | none => false

/-- Literal note appended to the manual summary, patroAutoCommit.py line 228. -/
def noteText : String := "\n\nNote: The full diff was ignored due to its large size."

/-- Diff size handling of main, patroAutoCommit.py lines 205-232.
Inputs: the staged diff, the result of the .gml-restricted diff query of
line 216, the raw text typed at the manual-summary input of line 224, and
the additional_message already in scope from line 208. -/
def handle_diff_size (staged_diff : String) (staged_diff_gml : Option String)
    (user_summary_input : String) (additional_message : String) : MainOutcome :=
  if staged_diff.length > MAX_DIFF_SIZE then
    if gmlUsable staged_diff_gml then
      MainOutcome.proceed (staged_diff_gml.getD "") additional_message
    else
      if pyStrip user_summary_input = "" then
        MainOutcome.exitCode 1
      else
        MainOutcome.proceed "" (pyStrip user_summary_input ++ noteText)
  else
    MainOutcome.proceed staged_diff additional_message

/-- Sizes of the successive values taken by the staged_diff payload variable
during handle_diff_size: the full diff, then, only when the full diff is
oversized, either the adopted .gml diff (line 218) or the emptied payload
(line 229). -/
def narrowTrace (staged_diff : String) (staged_diff_gml : Option String) : List Nat :=
  if staged_diff.length > MAX_DIFF_SIZE then
    if gmlUsable staged_diff_gml then
      [staged_diff.length, (staged_diff_gml.getD "").length]
    else
      [staged_diff.length, 0]
  else
    [staged_diff.length]

/-- Context message construction in generate_commit_message,
patroAutoCommit.py lines 150-152, with Python truthiness on the string. -/
def context_message_of (additional_message : String) : String :=
  if additional_message ≠ "" then
    "It's important to bear the following in mind: " ++ additional_message
  else ""

/-- Prompt parts list of generate_commit_message, patroAutoCommit.py
lines 154-161; the diff content is the element at index 3. -/
def prompt_parts_of (master_prompt diff_content additional_message : String) : List String :=
  [master_prompt,
   context_message_of additional_message,
   "\n--- GIT DIFF ---\n",
   diff_content,
   "\n--- END OF GIT DIFF ---\n",
   "\nGenerate the commit message now:"]

/-! ## Commit report compilation, src/PatroMessages.py -/

/-- format_message, PatroMessages.py lines 135-145: optional hash line,
timestamp line, full message, separator of 50 dashes. -/
def format_message (commit_hash timestamp message : String) (show_hashes : Bool) : String :=
  (if show_hashes then "Commit Hash: " ++ commit_hash ++ "\n" else "") ++
  ("Timestamp: " ++ timestamp ++ "\n") ++
  (message ++ "\n") ++
  (String.mk (List.replicate 50 '-') ++ "\n")

/-- Loop body accumulation of compile_messages, PatroMessages.py
lines 151-156: fetch message and timestamp for each hash and keep the
formatted block only when both are truthy (not None and not empty). The
get_msg and get_ts oracles model get_commit_message and
get_commit_timestamp, which return None when their git query fails. -/
def compile_list (hashes : List String) (show_hashes : Bool)
    (get_msg get_ts : String → Option String) : List String :=
  match hashes with
  | [] => []
  | hsh :: rest =>
      match get_msg hsh, get_ts hsh with
      | some msg, some ts =>
          if msg ≠ "" ∧ ts ≠ "" then
            format_message hsh ts msg show_hashes :: compile_list rest show_hashes get_msg get_ts
          else
            compile_list rest show_hashes get_msg get_ts
      | some _, none => compile_list rest show_hashes get_msg get_ts
      | none, _ => compile_list rest show_hashes get_msg get_ts

/-- compile_messages, PatroMessages.py lines 147-157: join of the collected
blocks with no separator. -/
def compile_messages (hashes : List String) (show_hashes : Bool)
    (get_msg get_ts : String → Option String) : String :=
  String.join (compile_list hashes show_hashes get_msg get_ts)

/-- Per-hash emission decision implicit in the compile_messages loop: a
block is produced exactly when both fetches return a non-empty value. -/
def emit_record (show_hashes : Bool) (get_msg get_ts : String → Option String)
    (hsh : String) : Option String :=
  match get_msg hsh, get_ts hsh with
  | some msg, some ts =>
      if msg ≠ "" ∧ ts ≠ "" then some (format_message hsh ts msg show_hashes) else none
  | some _, none => none
  | none, _ => none

/-- Result of one subprocess.run invocation of git, distinguishing the two
exception paths of PatroMessages.py: CalledProcessError (caught at line 206)
and FileNotFoundError (not caught in get_commits_by_date_range). -/
inductive RunResult where
  | ok (stdout : String)
  | calledProcessError (stderr : String)
  | fileNotFound
deriving DecidableEq

/-- Result handling of the git log query in get_commits_by_date_range,
PatroMessages.py lines 187-208: split stdout into hashes, drop empty
entries, return None when nothing remains, otherwise compile the report.
A CalledProcessError is caught and yields None; a FileNotFoundError is not
caught there and aborts the run, modelled as Except.error. -/
def get_commits_by_date_range_run (log : RunResult) (show_hashes : Bool)
    (get_msg get_ts : String → Option String) : Except Unit (Option String) :=
  match log with
  | RunResult.ok out =>
      if ((pySplit (pyStrip out) '\n').filter (fun hsh => hsh != "")).isEmpty then
        Except.ok none
      else
        Except.ok (some (compile_messages
          ((pySplit (pyStrip out) '\n').filter (fun hsh => hsh != ""))
          show_hashes get_msg get_ts))
  | RunResult.calledProcessError _ => Except.ok none
  | RunResult.fileNotFound => Except.error ()

/-! ## Date window, src/PatroMessages.py lines 159-185

Dates are represented by their proleptic Gregorian ordinal, exactly the
value of Python datetime.date.toordinal (0001-01-01 has ordinal 1); this
models the datetime arithmetic the script performs with timedelta. -/

/-- Gregorian leap year test. -/
def isLeapYear (y : Nat) : Bool :=
  (y % 4 == 0 && y % 100 != 0) || y % 400 == 0

/-- Days in the whole years strictly before year y. -/
def daysBeforeYear (y : Nat) : Nat :=
  365 * (y - 1) + (y - 1) / 4 - (y - 1) / 100 + (y - 1) / 400

/-- Length of a month of the Gregorian calendar. -/
def daysInMonth (y m : Nat) : Nat :=
  match m with
  | 1 => 31
  | 2 => if isLeapYear y then 29 else 28
  | 3 => 31
  | 4 => 30
  | 5 => 31
  | 6 => 30
  | 7 => 31
  | 8 => 31
  | 9 => 30
  | 10 => 31
  | 11 => 30
  | 12 => 31
  | _ => 0

/-- Days in the months of year y strictly before month m. -/
def daysBeforeMonth (y : Nat) : Nat → Nat
  | 0 => 0
  | 1 => 0
  | m + 2 => daysBeforeMonth y (m + 1) + daysInMonth y (m + 1)

/-- Proleptic Gregorian ordinal of a calendar date, as in Python
datetime.date.toordinal. -/
def toOrdinalDate (y m d : Nat) : Nat :=
  daysBeforeYear y + daysBeforeMonth y m + d

/-- Python datetime.weekday on an ordinal: 0 is Monday and 6 is Sunday;
ordinal 1 (0001-01-01) is a Monday. -/
def pyWeekday (ordinal : Nat) : Nat :=
  (ordinal + 6) % 7

/-- Lookback selection of get_commits_by_date_range, PatroMessages.py
lines 168-174: 3 days on a Monday, 1 day otherwise. -/
def days_to_look_back (today : Nat) : Nat :=
  if pyWeekday today = 0 then 3 else 1

/-- since date of the window, PatroMessages.py line 178. -/
def since_ordinal (today : Nat) : Nat :=
  today - days_to_look_back today

/-- until date of the window, PatroMessages.py line 182 (tomorrow, so the
whole of today is captured). -/
def until_ordinal (today : Nat) : Nat :=
  today + 1

/-! ## Daily report prompt, src/PatroMessages.py lines 69-79 and 236-264 -/

/-- SYSTEM_INSTRUCTION_REPORT, PatroMessages.py lines 69-79 (the adjacent
Python string literals concatenated). -/
def SYSTEM_INSTRUCTION_REPORT : String :=
  "Você é um assistente de Daily Report de desenvolvimento de jogos. " ++
  "Sua tarefa é analisar as mensagens de commit brutas, o foco planejado e os bloqueios, " ++
  "e gerar um Daily Report conciso em Português, seguindo o formato padrão fornecido. " ++
  "Resuma os avanços em uma única linha (máximo 150 caracteres), mantendo a objetividade e " ++
  "**EVITANDO QUALQUER EMOJI no texto do resumo e nos itens de Foco/Bloqueio**." ++
  "O formato de saída DEVE ser estritamente o seguinte, usando APENAS os emojis indicados nos cabeçalhos, sem introdução ou conclusão adicionais: " ++
  ":white_check_mark: **Avanços:** [Resumo em uma linha]\n" ++
  ":pencil: **Foco:** [Lista de itens do foco, iniciando com '*']\n" ++
  ":warning: **Bloqueio:** [Problemas ou N/A]"

/-- Advances block of generate_daily_report, PatroMessages.py lines 243-245. -/
def all_advances_input_of (raw_commits custom_advances : String) : String :=
  raw_commits ++
    (if pyStrip custom_advances ≠ "" then
      "\n--- AVANÇOS MANUAIS ADICIONAIS ---\n" ++ custom_advances ++ "\n"
    else "")

/-- Focus list rendering of generate_daily_report, PatroMessages.py
lines 248-251: split on commas, strip each item, keep the truthy ones as
bullets, or a literal N/A bullet when the input is empty. -/
def focus_list_of (focus : String) : String :=
  if focus ≠ "" then
    pyJoin "\n" ((pySplit focus ',').filterMap (fun item =>
      if pyStrip item = "" then none else some ("* " ++ pyStrip item)))
  else "* N/A"

/-- Blockers rendering of generate_daily_report, PatroMessages.py line 254:
a literal N/A when the lowercased, stripped input is one of the negation
words or empty, otherwise the input unchanged. -/
def blocks_text_of (blocks : String) : String :=
  if pyStrip (pyLower blocks) = "n/a" ∨ pyStrip (pyLower blocks) = "nenhum" ∨
      pyStrip (pyLower blocks) = "" then
    "N/A"
  else blocks

/-- user_prompt assembly of generate_daily_report, PatroMessages.py
lines 257-264. -/
def user_prompt_of (raw_commits custom_advances focus blocks : String) : String :=
  SYSTEM_INSTRUCTION_REPORT ++ "\n\n" ++
  "Gere um Daily Report de equipe com base nas seguintes informações:\n\n" ++
  "--- MENSAGENS DE COMMIT E AVANÇOS ---\n" ++
  all_advances_input_of raw_commits custom_advances ++ "\n" ++
  "--- FOCO PLANEJADO PARA HOJE ---\n" ++ focus_list_of focus ++ "\n\n" ++
  "--- BLOQUEIOS / PROBLEMAS ---\n" ++ blocks_text_of blocks ++ "\n\n" ++
  "Gere o relatório agora, seguindo estritamente o formato de três pontos (Avanços, Foco, Bloqueio) e a instrução do sistema."

/-! ## Helper lemmas -/

theorem gmlUsable_eq_true {gml : Option String} (h : gmlUsable gml = true) :
    ∃ g, gml = some g ∧ g ≠ "" ∧ g.length ≤ MAX_DIFF_SIZE := by
  cases gml with
  | none => simp [gmlUsable] at h
  | some g =>
      refine ⟨g, rfl, ?_⟩
      simpa [gmlUsable] using h

theorem handle_big_unusable (staged_diff : String) (gml : Option String)
    (usum am : String) (h1 : staged_diff.length > MAX_DIFF_SIZE)
    (h2 : gmlUsable gml = false) :
    handle_diff_size staged_diff gml usum am =
      if pyStrip usum = "" then MainOutcome.exitCode 1
      else MainOutcome.proceed "" (pyStrip usum ++ noteText) := by
  have hg : ¬ gmlUsable gml = true := by simp [h2]
  unfold handle_diff_size
  rw [if_pos h1, if_neg hg]

theorem compile_list_eq_filterMap (hashes : List String) (sh : Bool)
    (g t : String → Option String) :
    compile_list hashes sh g t = hashes.filterMap (emit_record sh g t) := by
  induction hashes with
  | nil => rfl
  | cons hsh rest ih =>
      rw [List.filterMap_cons]
      cases hg : g hsh with
      | none => simp [compile_list, emit_record, hg, ih]
      | some msg =>
          cases ht : t hsh with
          | none => simp [compile_list, emit_record, hg, ht, ih]
          | some ts =>
              by_cases hc : msg ≠ "" ∧ ts ≠ ""
              · simp [compile_list, emit_record, hg, ht, hc, ih]
              · simp [compile_list, emit_record, hg, ht, hc, ih]

theorem compile_messages_drop (hs₁ hs₂ : List String) (hh : String) (sh : Bool)
    (g t : String → Option String) (h : emit_record sh g t hh = none) :
    compile_messages (hs₁ ++ hh :: hs₂) sh g t = compile_messages (hs₁ ++ hs₂) sh g t := by
  unfold compile_messages
  rw [compile_list_eq_filterMap, compile_list_eq_filterMap, List.filterMap_append,
    List.filterMap_append, List.filterMap_cons, h]

theorem filterMap_congr_fun {α β : Type} (l : List α) (f g : α → Option β)
    (h : ∀ a, f a = g a) : l.filterMap f = l.filterMap g := by
  induction l with
  | nil => rfl
  | cons x xs ih => rw [List.filterMap_cons, List.filterMap_cons, h x, ih]

/-! ## Claim theorems -/

/-- C1: the prompt assembled by the auto-commit pipeline never carries a
diff larger than the 80000-character ceiling; whenever the full staged diff
exceeds the ceiling and the extension-filtered diff is unusable (failed,
empty, or itself over the ceiling), the diff body sent onward is the empty
string; the diff body is exactly the prompt element at index 3, so an
oversized input diff never appears verbatim there. -/
theorem c1_prompt_diff_bounded (staged_diff : String) (gml : Option String)
    (usum am d m : String)
    (h : handle_diff_size staged_diff gml usum am = MainOutcome.proceed d m) :
    d.length ≤ MAX_DIFF_SIZE ∧
    (staged_diff.length > MAX_DIFF_SIZE → gmlUsable gml = false → d = "") ∧
    (∀ mp, (prompt_parts_of mp d m).get? 3 = some d) := by
  unfold handle_diff_size at h
  by_cases hbig : staged_diff.length > MAX_DIFF_SIZE
  · rw [if_pos hbig] at h
    by_cases hg : gmlUsable gml = true
    · rw [if_pos hg] at h
      injection h with hd hm
      obtain ⟨g, hgeq, _, hgle⟩ := gmlUsable_eq_true hg
      subst hd
      refine ⟨by simpa [hgeq] using hgle, ?_, fun mp => rfl⟩
      intro _ hfalse
      rw [hg] at hfalse
      cases hfalse
    · rw [if_neg hg] at h
      by_cases hu : pyStrip usum = ""
      · rw [if_pos hu] at h
        cases h
      · rw [if_neg hu] at h
        injection h with hd hm
        subst hd
        exact ⟨by simp [MAX_DIFF_SIZE], fun _ _ => rfl, fun mp => rfl⟩
  · rw [if_neg hbig] at h
    injection h with hd hm
    subst hd
    exact ⟨Nat.le_of_not_lt hbig, fun hb _ => absurd hb hbig, fun mp => rfl⟩

/-- C1 witness: a 100000-character staged diff with no usable .gml diff and
a manual summary supplied yields an empty diff body, bounded by the ceiling
and sitting at index 3 of the prompt parts. -/
theorem c1_witness :
    ("" : String).length ≤ MAX_DIFF_SIZE ∧
    ((String.mk (List.replicate 100000 'a')).length > MAX_DIFF_SIZE →
      gmlUsable none = false → ("" : String) = "") ∧
    (∀ mp, (prompt_parts_of mp "" (pyStrip "fix player jump" ++ noteText)).get? 3
      = some "") := by
  have h1 : (String.mk (List.replicate 100000 'a')).length > MAX_DIFF_SIZE := by
    rw [String.length_mk, List.length_replicate]
    decide
  have hmain : handle_diff_size (String.mk (List.replicate 100000 'a')) none
      "fix player jump" "" =
      MainOutcome.proceed "" (pyStrip "fix player jump" ++ noteText) := by
    rw [handle_big_unusable _ none "fix player jump" "" h1 rfl]
    decide
  exact c1_prompt_diff_bounded (String.mk (List.replicate 100000 'a')) none
    "fix player jump" "" "" (pyStrip "fix player jump" ++ noteText) hmain

/-- C2: the payload size is non-increasing across the narrowing stages; the
trace of adopted payload sizes is strictly decreasing, every stage is
bounded by the initial size, and the last trace entry is the size of the
diff the pipeline proceeds with. -/
theorem c2_narrowing_monotone (staged_diff : String) (gml : Option String) :
    List.Chain' (fun a b => b < a) (narrowTrace staged_diff gml) ∧
    (∀ x ∈ narrowTrace staged_diff gml, x ≤ staged_diff.length) ∧
    (∀ usum am d m,
      handle_diff_size staged_diff gml usum am = MainOutcome.proceed d m →
      (narrowTrace staged_diff gml).getLast? = some d.length) := by
  by_cases hbig : staged_diff.length > MAX_DIFF_SIZE
  · by_cases hg : gmlUsable gml = true
    · obtain ⟨g, hgeq, _, hgle⟩ := gmlUsable_eq_true hg
      subst hgeq
      unfold narrowTrace
      rw [if_pos hbig, if_pos hg]
      simp only [Option.getD_some]
      have hlt : g.length < staged_diff.length := lt_of_le_of_lt hgle hbig
      refine ⟨?_, ?_, ?_⟩
      · simp [List.chain'_cons, hlt]
      · intro x hx
        simp only [List.mem_cons, List.mem_singleton] at hx
        rcases hx with rfl | rfl | hx
        · exact le_refl _
        · exact le_of_lt hlt
        · cases hx
      · intro usum am d m h
        unfold handle_diff_size at h
        rw [if_pos hbig, if_pos hg] at h
        injection h with hd hm
        subst hd
        rfl
    · have hg' : gmlUsable gml = false := by
        cases hfg : gmlUsable gml
        · rfl
        · exact absurd hfg hg
      unfold narrowTrace
      rw [if_pos hbig, if_neg hg]
      refine ⟨?_, ?_, ?_⟩
      · simp [List.chain'_cons]
        omega
      · intro x hx
        simp only [List.mem_cons, List.mem_singleton] at hx
        rcases hx with rfl | rfl | hx
        · exact le_refl _
        · exact Nat.zero_le _
        · cases hx
      · intro usum am d m h
        rw [handle_big_unusable staged_diff gml usum am hbig hg'] at h
        by_cases hu : pyStrip usum = ""
        · rw [if_pos hu] at h
          cases h
        · rw [if_neg hu] at h
          injection h with hd hm
          subst hd
          rfl
  · unfold narrowTrace
    rw [if_neg hbig]
    refine ⟨by simp, ?_, ?_⟩
    · intro x hx
      simp only [List.mem_singleton] at hx
      subst hx
      exact le_refl _
    · intro usum am d m h
      unfold handle_diff_size at h
      rw [if_neg hbig] at h
      injection h with hd hm
      subst hd
      rfl

/-- C2 witness: on a small diff the trace is the single full-diff stage and
its last entry is the size of the diff the pipeline proceeds with. -/
theorem c2_witness :
    (narrowTrace "d" none).getLast? = some ("d" : String).length :=
  (c2_narrowing_monotone "d" none).2.2 "" "" "d" ""
    (by decide)

/-- C3: on a Monday the lookback is 3 days and the window spans 4 days; on
every other weekday the lookback is 1 day and the window spans 2 days; for
Monday 2024-01-08 the window is since 2024-01-05, until 2024-01-09. -/
theorem c3_date_window (today : Nat) (ht : 3 ≤ today) :
    (pyWeekday today = 0 →
      until_ordinal today - since_ordinal today = 4 ∧ days_to_look_back today = 3) ∧
    (pyWeekday today ≠ 0 →
      until_ordinal today - since_ordinal today = 2 ∧ days_to_look_back today = 1) ∧
    (pyWeekday (toOrdinalDate 2024 1 8) = 0 ∧
     since_ordinal (toOrdinalDate 2024 1 8) = toOrdinalDate 2024 1 5 ∧
     until_ordinal (toOrdinalDate 2024 1 8) = toOrdinalDate 2024 1 9) := by
  refine ⟨?_, ?_, by decide⟩
  · intro h0
    unfold until_ordinal since_ordinal days_to_look_back
    rw [if_pos h0]
    omega
  · intro h0
    unfold until_ordinal since_ordinal days_to_look_back
    rw [if_neg h0]
    omega

/-- C3 witness: the Monday 2024-01-08 scenario, via the theorem applied at
that date's ordinal. -/
theorem c3_witness :
    pyWeekday (toOrdinalDate 2024 1 8) = 0 ∧
    since_ordinal (toOrdinalDate 2024 1 8) = toOrdinalDate 2024 1 5 ∧
    until_ordinal (toOrdinalDate 2024 1 8) = toOrdinalDate 2024 1 9 :=
  (c3_date_window (toOrdinalDate 2024 1 8) (by decide)).2.2

/-- C4 counterexample: both fetches return a value (they are some), yet no
record is emitted, because the message value is the empty string and the
code gates emission on truthiness; the claimed if-and-only-if with mere
fetch success is therefore false. -/
theorem c4_counterexample :
    ((fun _ => (some "" : Option String)) "a1b2c3").isSome = true ∧
    ((fun _ => (some "2024-05-06 10:00:00" : Option String)) "a1b2c3").isSome = true ∧
    compile_messages ["a1b2c3"] true (fun _ => some "")
      (fun _ => some "2024-05-06 10:00:00") = "" := by
  refine ⟨rfl, rfl, ?_⟩
  decide

/-- C4 amended: a commit record is emitted if and only if both its message
fetch and its timestamp fetch returned a non-empty value; a revision for
which either fetch fails or comes back empty is silently absent, producing
no block at all, and the remaining records keep the input order (the
compiled list is an order-preserving filterMap of the input hashes). -/
theorem c4_amended_emission (hashes : List String) (sh : Bool)
    (g t : String → Option String) :
    compile_list hashes sh g t = hashes.filterMap (emit_record sh g t) ∧
    (∀ hh, (emit_record sh g t hh).isSome = true ↔
      ∃ msg ts, g hh = some msg ∧ t hh = some ts ∧ msg ≠ "" ∧ ts ≠ "") ∧
    (∀ hs₁ hs₂ hh, emit_record sh g t hh = none →
      compile_messages (hs₁ ++ hh :: hs₂) sh g t = compile_messages (hs₁ ++ hs₂) sh g t) := by
  refine ⟨compile_list_eq_filterMap hashes sh g t, ?_, ?_⟩
  · intro hh
    constructor
    · intro hsome
      cases hg : g hh with
      | none => simp [emit_record, hg] at hsome
      | some msg =>
          cases ht : t hh with
          | none => simp [emit_record, hg, ht] at hsome
          | some ts =>
              by_cases hc : msg ≠ "" ∧ ts ≠ ""
              · exact ⟨msg, ts, rfl, rfl, hc.1, hc.2⟩
              · simp [emit_record, hg, ht, hc] at hsome
    · rintro ⟨msg, ts, hg, ht, hm, hts⟩
      simp [emit_record, hg, ht, hm, hts]
  · intro hs₁ hs₂ hh hnone
    exact compile_messages_drop hs₁ hs₂ hh sh g t hnone

/-- C4 witness: a revision whose message fetch fails is dropped and the
remaining record is unaffected. -/
theorem c4_witness :
    compile_messages (["aaa"] ++ "bbb" :: []) true
      (fun x => if x = "bbb" then none else some "feat: add menu")
      (fun _ => some "2024-05-06 10:00:00") =
    compile_messages (["aaa"] ++ []) true
      (fun x => if x = "bbb" then none else some "feat: add menu")
      (fun _ => some "2024-05-06 10:00:00") :=
  (c4_amended_emission [] true
      (fun x => if x = "bbb" then none else some "feat: add menu")
      (fun _ => some "2024-05-06 10:00:00")).2.2 ["aaa"] [] "bbb" (by decide)

/-- C5: when the diff is oversized and the filtered diff is unusable, the
run aborts with exit code 1 exactly when the stripped manual summary is
empty; a non-empty summary proceeds with an emptied diff and the summary
(plus the fixed note) as the message sent in its place. -/
theorem c5_none_stage_requires_summary (staged_diff : String) (gml : Option String)
    (usum am : String) (h1 : staged_diff.length > MAX_DIFF_SIZE)
    (h2 : gmlUsable gml = false) :
    handle_diff_size staged_diff gml usum am =
      if pyStrip usum = "" then MainOutcome.exitCode 1
      else MainOutcome.proceed "" (pyStrip usum ++ noteText) :=
  handle_big_unusable staged_diff gml usum am h1 h2

/-- C5 witness: an oversized diff, no .gml fallback and a blank summary
aborts with exit code 1. -/
theorem c5_witness :
    handle_diff_size (String.mk (List.replicate 80001 'a')) none "   " "" =
      MainOutcome.exitCode 1 := by
  have h1 : (String.mk (List.replicate 80001 'a')).length > MAX_DIFF_SIZE := by
    rw [String.length_mk, List.length_replicate]
    decide
  rw [c5_none_stage_requires_summary (String.mk (List.replicate 80001 'a')) none
    "   " "" h1 rfl]
  decide

/-- C6: when the log query output contains no revisions (blank stdout), the
collector returns the explicit absent marker None, not an empty string and
not an error. -/
theorem c6_empty_window_none (sh : Bool) (g t : String → Option String)
    (s : String) (hs : pyStrip s = "") :
    get_commits_by_date_range_run (RunResult.ok s) sh g t = Except.ok none := by
  simp only [get_commits_by_date_range_run, hs]
  rfl

/-- C6 witness: the empty stdout case. -/
theorem c6_witness :
    get_commits_by_date_range_run (RunResult.ok "") false
      (fun _ => none) (fun _ => none) = Except.ok none :=
  c6_empty_window_none false (fun _ => none) (fun _ => none) "" rfl

/-- C7: every rendered commit record is the optional hash line, the
timestamp line, the full message, and a separator; it always ends with a
newline, then exactly 50 dash characters, then a final newline. -/
theorem c7_record_format (ch ts msg : String) (sh : Bool) :
    ∃ p, format_message ch ts msg sh =
        p ++ "\n" ++ String.mk (List.replicate 50 '-') ++ "\n" ∧
      p = (if sh then "Commit Hash: " ++ ch ++ "\n" else "") ++
          ("Timestamp: " ++ ts ++ "\n") ++ msg := by
  refine ⟨(if sh then "Commit Hash: " ++ ch ++ "\n" else "") ++
    ("Timestamp: " ++ ts ++ "\n") ++ msg, ?_, rfl⟩
  cases sh <;> simp [format_message, String.append_assoc]

/-- C8: the blockers input is rendered unchanged unless, lowercased and
stripped, it is empty or one of the negation words, in which case the
literal N/A placeholder is rendered; the assembled report prompt for the
input n/a carries the literal N/A in the blockers section. -/
theorem c8_blockers (blocks : String) :
    ((pyStrip (pyLower blocks) = "n/a" ∨ pyStrip (pyLower blocks) = "nenhum" ∨
        pyStrip (pyLower blocks) = "") →
      blocks_text_of blocks = "N/A") ∧
    (¬(pyStrip (pyLower blocks) = "n/a" ∨ pyStrip (pyLower blocks) = "nenhum" ∨
        pyStrip (pyLower blocks) = "") →
      blocks_text_of blocks = blocks) ∧
    (∀ rc ca f, ∃ p, user_prompt_of rc ca f "n/a" =
      p ++ ("--- BLOQUEIOS / PROBLEMAS ---\n" ++ "N/A" ++ "\n\n" ++
        "Gere o relatório agora, seguindo estritamente o formato de três pontos (Avanços, Foco, Bloqueio) e a instrução do sistema.")) := by
  refine ⟨fun h => by unfold blocks_text_of; rw [if_pos h],
    fun h => by unfold blocks_text_of; rw [if_neg h], ?_⟩
  intro rc ca f
  have hb : blocks_text_of "n/a" = "N/A" := by decide
  refine ⟨SYSTEM_INSTRUCTION_REPORT ++ "\n\n" ++
    "Gere um Daily Report de equipe com base nas seguintes informações:\n\n" ++
    "--- MENSAGENS DE COMMIT E AVANÇOS ---\n" ++
    all_advances_input_of rc ca ++ "\n" ++
    "--- FOCO PLANEJADO PARA HOJE ---\n" ++ focus_list_of f ++ "\n\n", ?_⟩
  rw [user_prompt_of, hb]
  simp [String.append_assoc]

/-- C8 witness: the n/a input yields the literal N/A placeholder and an
ordinary blockers text passes through unchanged. -/
theorem c8_witness :
    blocks_text_of "n/a" = "N/A" ∧ blocks_text_of "api fora do ar" = "api fora do ar" :=
  ⟨(c8_blockers "n/a").1 (by decide), (c8_blockers "api fora do ar").2.1 (by decide)⟩

/-- C9: a missing git binary on the broad log query is not caught and is
fatal to the calling workflow (the run aborts), whereas a failed fetch for
one specific revision only drops that record from the compiled report. -/
theorem c9_tool_failures :
    (∀ sh (g t : String → Option String),
      get_commits_by_date_range_run RunResult.fileNotFound sh g t = Except.error ()) ∧
    (∀ (hs₁ hs₂ : List String) hh sh (g t : String → Option String), g hh = none →
      compile_messages (hs₁ ++ hh :: hs₂) sh g t = compile_messages (hs₁ ++ hs₂) sh g t) := by
  refine ⟨fun sh g t => rfl, ?_⟩
  intro hs₁ hs₂ hh sh g t hg
  refine compile_messages_drop hs₁ hs₂ hh sh g t ?_
  unfold emit_record
  rw [hg]

/-- C9 witness: one revision whose message query fails is dropped from the
report. -/
theorem c9_witness :
    compile_messages ([] ++ "deadbeef" :: []) false (fun _ => none)
      (fun _ => some "2024-05-06 10:00:00") =
    compile_messages ([] ++ []) false (fun _ => none)
      (fun _ => some "2024-05-06 10:00:00") :=
  c9_tool_failures.2 [] [] "deadbeef" false (fun _ => none)
    (fun _ => some "2024-05-06 10:00:00") rfl

/-- C10: a fetch that succeeds with the empty string is treated exactly as a
failed fetch: compiling with such an oracle equals compiling with the same
oracle masked to None at that hash, because emission is gated on truthiness
of the fetched values. -/
theorem c10_empty_fetch_drop (hashes : List String) (sh : Bool)
    (g t : String → Option String) (hh : String) :
    (g hh = some "" →
      compile_messages hashes sh g t =
      compile_messages hashes sh (fun x => if x = hh then none else g x) t) ∧
    (t hh = some "" →
      compile_messages hashes sh g t =
      compile_messages hashes sh g (fun x => if x = hh then none else t x)) := by
  constructor
  · intro hg
    unfold compile_messages
    rw [compile_list_eq_filterMap, compile_list_eq_filterMap]
    congr 1
    refine filterMap_congr_fun hashes _ _ ?_
    intro x
    by_cases hx : x = hh
    · subst hx
      unfold emit_record
      rw [hg]
      simp only [if_pos rfl]
      cases ht : t x with
      | none => rfl
      | some ts => simp
    · unfold emit_record
      simp only [if_neg hx]
  · intro ht
    unfold compile_messages
    rw [compile_list_eq_filterMap, compile_list_eq_filterMap]
    congr 1
    refine filterMap_congr_fun hashes _ _ ?_
    intro x
    by_cases hx : x = hh
    · subst hx
      unfold emit_record
      rw [ht]
      simp only [if_pos rfl]
      cases hg : g x with
      | none => rfl
      | some msg => simp
    · unfold emit_record
      simp only [if_neg hx]

/-- C10 witness: an empty-string message fetch drops the record exactly as a
None fetch would. -/
theorem c10_witness :
    compile_messages ["x"] true (fun _ => some "") (fun _ => some "2024-05-06 10:00:00") =
    compile_messages ["x"] true
      (fun y => if y = "x" then none else (fun _ => (some "" : Option String)) y)
      (fun _ => some "2024-05-06 10:00:00") :=
  (c10_empty_fetch_drop ["x"] true (fun _ => some "")
    (fun _ => some "2024-05-06 10:00:00") "x").1 rfl

end PatroVerif
